import Mathlib

/-!
Verification of the loggregator transport core: the length-prefixed wire
codec, the ingestion listener's per-connection decode loop and metrics,
the egress forwarder (Wrapper) metrics, the listener start/stop state
machine, the TLS client-verification policy, and the config Parse
function. Bytes are modelled as naturals (each < 256 where it matters),
streams as lists of bytes, and machine integers with explicit `% 2 ^ 32`.
-/

namespace Loggregator

/-- A byte on the wire, as a natural number. -/
abbrev Byte := Nat

/-- Envelope event types, mirroring `events.Envelope_EventType` from
sonde-go (Error = 8 etc. per the generated enum; the transport treats the
tag as opaque). -/
inductive EventType
  | httpStart
  | httpStop
  | httpStartStop
  | logMessage
  | valueMetric
  | counterEvent
  | err
  | containerMetric
deriving DecidableEq, Repr

/-- Numeric tag of each event type (values of `Envelope_EventType_value`). -/
def EventType.tag : EventType → Nat
  | .httpStart => 2
  | .httpStop => 3
  | .httpStartStop => 4
  | .logMessage => 5
  | .valueMetric => 6
  | .counterEvent => 7
  | .err => 8
  | .containerMetric => 9

/-- An envelope: an event type together with an opaque serialized body.
The transport never inspects the body beyond its length. -/
structure Envelope where
  eventType : EventType
  body : List Byte
deriving DecidableEq, Repr

/-- Modelled from the spec: `proto.Marshal` for envelopes (the protobuf
serializer is an external library; only its callers are under src/). The
spec treats the envelope as "an opaque, serializable event record", so
serialization is modelled as the event-type tag followed by the opaque
body bytes. -/
def marshal (e : Envelope) : List Byte :=
  e.eventType.tag :: e.body

/-- Inverse of `EventType.tag` on the wire. -/
def tagToEventType : Nat → Option EventType
  | 2 => some .httpStart
  | 3 => some .httpStop
  | 4 => some .httpStartStop
  | 5 => some .logMessage
  | 6 => some .valueMetric
  | 7 => some .counterEvent
  | 8 => some .err
  | 9 => some .containerMetric
  | _ => none

/-- Modelled from the spec: `proto.Unmarshal` for envelopes (external
protobuf library; only its callers are under src/): deserialization of a
serialized envelope, failing on an unrecognized tag or empty payload. -/
def unmarshal (bs : List Byte) : Option Envelope :=
  match bs with
  | [] => none
  | t :: rest => (tagToEventType t).map (fun et => ⟨et, rest⟩)

/-- The four bytes of the little-endian encoding of a 32-bit value, as
written by `binary.Write(conn, binary.LittleEndian, n)` for a `uint32`. -/
def leBytes4 (n : Nat) : List Byte :=
  [n % 256, n / 256 % 256, n / 65536 % 256, n / 16777216 % 256]

/-- The value of four little-endian bytes. -/
def fromLE4 (b0 b1 b2 b3 : Byte) : Nat :=
  b0 + 256 * b1 + 65536 * b2 + 16777216 * b3

/-- `send` from the source (src/src/trafficcontroller/main.go:505-520):
serialize the envelope, prefix with its length as a 4-byte little-endian
unsigned integer (`uint32(len(bytes))`, hence the `% 2 ^ 32`), and emit
the concatenation on the connection. -/
def encode (e : Envelope) : List Byte :=
  let bs := marshal e
  leBytes4 (bs.length % 2 ^ 32) ++ bs

/-- Framing failures of the decoder. -/
inductive FramingError
  | shortRead
  | deserializeFailure
deriving DecidableEq, Repr

/-- Modelled from the spec: the listener-side `decode` (the TCPListener
implementation is not under src/, only its tests): read exactly 4 bytes
for the length, then exactly that many bytes for the payload, then
deserialize; any short read or deserialization failure is a
`FramingError` with no partial-result recovery. On success, return the
envelope and the bytes remaining after the frame. -/
def decode (bs : List Byte) : Except FramingError (Envelope × List Byte) :=
  match bs with
  | b0 :: b1 :: b2 :: b3 :: rest =>
    let n := fromLE4 b0 b1 b2 b3
    if n ≤ rest.length then
      match unmarshal (rest.take n) with
      | some e => .ok (e, rest.drop n)
      | none => .error .deserializeFailure
    else .error .shortRead
  | _ => .error .shortRead

theorem tagToEventType_tag (et : EventType) : tagToEventType et.tag = some et := by
  cases et <;> rfl

theorem unmarshal_marshal (e : Envelope) : unmarshal (marshal e) = some e := by
  simp [marshal, unmarshal, tagToEventType_tag]

theorem fromLE4_leBytes4 (n : Nat) (h : n < 2 ^ 32) :
    fromLE4 (n % 256) (n / 256 % 256) (n / 65536 % 256) (n / 16777216 % 256) = n := by
  unfold fromLE4
  omega

/-- C1: decoding the frame produced by encoding any valid envelope (of
any event type) yields that envelope back, with the whole frame consumed. -/
theorem decode_encode_roundtrip (e : Envelope) (h : (marshal e).length < 2 ^ 32) :
    decode (encode e) = .ok (e, []) := by
  have hmod : (marshal e).length % 2 ^ 32 = (marshal e).length := Nat.mod_eq_of_lt h
  simp only [encode, leBytes4, hmod]
  unfold decode
  simp only [List.cons_append, List.nil_append]
  rw [fromLE4_leBytes4 _ h]
  simp [List.take_length, List.drop_length, unmarshal_marshal]

/-- Witness for C1 at a concrete log-message envelope. -/
theorem decode_encode_roundtrip_witness :
    (marshal ⟨.logMessage, [10, 20, 30]⟩).length < 2 ^ 32 ∧
      decode (encode ⟨.logMessage, [10, 20, 30]⟩) = .ok (⟨.logMessage, [10, 20, 30]⟩, []) :=
  ⟨by decide, decode_encode_roundtrip ⟨.logMessage, [10, 20, 30]⟩ (by decide)⟩

/-- C9: the frame produced for an envelope is exactly the 4-byte
little-endian encoding of the serialized payload's length, immediately
followed by those payload bytes: the first four bytes decode to the
payload length, the remainder is the payload itself, and the total frame
length is exactly 4 + payload length (so there is no magic number,
version byte, or checksum, and one frame carries exactly one envelope). -/
theorem encode_wire_format (e : Envelope) (h : (marshal e).length < 2 ^ 32) :
    (encode e).length = 4 + (marshal e).length ∧
      (encode e).take 4 = leBytes4 (marshal e).length ∧
      fromLE4 ((encode e).getD 0 0) ((encode e).getD 1 0) ((encode e).getD 2 0)
        ((encode e).getD 3 0) = (marshal e).length ∧
      (encode e).drop 4 = marshal e := by
  have hmod : (marshal e).length % 2 ^ 32 = (marshal e).length := Nat.mod_eq_of_lt h
  simp only [encode, hmod]
  refine ⟨?_, ?_, ?_, ?_⟩
  · simp only [leBytes4, List.cons_append, List.nil_append, List.length_cons]
    omega
  · simp [leBytes4]
  · simp only [leBytes4, List.cons_append, List.nil_append, List.getD_cons_zero,
      List.getD_cons_succ]
    exact fromLE4_leBytes4 _ h
  · simp [leBytes4]

/-- Witness for C9 at a concrete counter-event envelope. -/
theorem encode_wire_format_witness :
    (marshal ⟨.counterEvent, [1, 2]⟩).length < 2 ^ 32 ∧
      ((encode ⟨.counterEvent, [1, 2]⟩).length = 4 + (marshal ⟨.counterEvent, [1, 2]⟩).length ∧
        (encode ⟨.counterEvent, [1, 2]⟩).take 4 = leBytes4 (marshal ⟨.counterEvent, [1, 2]⟩).length ∧
        fromLE4 ((encode ⟨.counterEvent, [1, 2]⟩).getD 0 0)
          ((encode ⟨.counterEvent, [1, 2]⟩).getD 1 0)
          ((encode ⟨.counterEvent, [1, 2]⟩).getD 2 0)
          ((encode ⟨.counterEvent, [1, 2]⟩).getD 3 0) = (marshal ⟨.counterEvent, [1, 2]⟩).length ∧
        (encode ⟨.counterEvent, [1, 2]⟩).drop 4 = marshal ⟨.counterEvent, [1, 2]⟩) :=
  ⟨by decide, encode_wire_format ⟨.counterEvent, [1, 2]⟩ (by decide)⟩

/-- One update sent to the metrics sink: `incrementCounter(name)` or
`addCounter(name, amount)`. -/
inductive MetricOp
  | incr (nm : String)
  | add (nm : String) (delta : Nat)
deriving DecidableEq, Repr

/-- Apply one metric update to a counter valuation. -/
def applyOp (c : String → Nat) : MetricOp → String → Nat
  | .incr nm => fun m => if m = nm then c m + 1 else c m
  | .add nm d => fun m => if m = nm then c m + d else c m

/-- Apply a sequence of metric updates, oldest first. -/
def applyOps (ops : List MetricOp) (c : String → Nat) : String → Nat :=
  ops.foldl applyOp c

/-- The three counter updates the listener emits for one successfully
decoded envelope whose frame carried `payloadLen` payload bytes. -/
def successOps (nm : String) (payloadLen : Nat) : List MetricOp :=
  [.incr (nm ++ ".receivedMessageCount"),
   .incr "listeners.totalReceivedMessageCount",
   .add (nm ++ ".receivedByteCount") payloadLen]

/-- The outcome of handling one connection: the envelopes delivered on
the output channel, in order, and the metric updates emitted. -/
structure ConnResult where
  delivered : List Envelope
  ops : List MetricOp
deriving DecidableEq, Repr

theorem decode_ok_length {bs rest : List Byte} {e : Envelope}
    (h : decode bs = .ok (e, rest)) : rest.length + 4 ≤ bs.length := by
  unfold decode at h
  match bs with
  | [] => exact absurd h (by simp)
  | [b0] => exact absurd h (by simp)
  | [b0, b1] => exact absurd h (by simp)
  | [b0, b1, b2] => exact absurd h (by simp)
  | b0 :: b1 :: b2 :: b3 :: tl =>
    simp only at h
    split at h
    · split at h
      · cases h
        simp only [List.length_cons, List.length_drop]
        omega
      · cases h
    · cases h

/-- Modelled from the spec: the TCPListener's per-connection read loop
(implementation not under src/, only its tests): repeatedly decode
frames from the byte stream; on success push the envelope onto the
output channel and emit `receivedMessageCount`,
`listeners.totalReceivedMessageCount` and `receivedByteCount` updates;
on any decode/framing error emit exactly one `receiveErrorCount`
increment and stop processing the connection; a peer close exactly at a
frame boundary is a clean end of stream, not an error. -/
def handleConnection (nm : String) (bs : List Byte) : ConnResult :=
  if hbs : bs = [] then ⟨[], []⟩
  else
    match hdec : decode bs with
    | .ok (e, rest) =>
      let r := handleConnection nm rest
      ⟨e :: r.delivered, successOps nm (bs.length - rest.length - 4) ++ r.ops⟩
    | .error _ => ⟨[], [.incr (nm ++ ".receiveErrorCount")]⟩
termination_by bs.length
decreasing_by
  have hlen := decode_ok_length hdec
  have : bs ≠ [] := hbs
  cases bs with
  | nil => simp at this
  | cons hd tl => simp_all; omega

theorem handleConnection_nil (nm : String) : handleConnection nm [] = ⟨[], []⟩ := by
  unfold handleConnection
  simp

theorem handleConnection_ok {bs rest : List Byte} {e : Envelope} (nm : String)
    (hbs : bs ≠ []) (hdec : decode bs = .ok (e, rest)) :
    handleConnection nm bs =
      ⟨e :: (handleConnection nm rest).delivered,
        successOps nm (bs.length - rest.length - 4) ++ (handleConnection nm rest).ops⟩ := by
  rw [handleConnection, dif_neg hbs]
  split
  · rename_i e' rest' heq
    rw [hdec] at heq
    simp only [Except.ok.injEq, Prod.mk.injEq] at heq
    obtain ⟨he, hrest⟩ := heq
    subst he
    subst hrest
    rfl
  · rename_i fe' heq
    rw [hdec] at heq
    cases heq

theorem handleConnection_error {bs : List Byte} {fe : FramingError} (nm : String)
    (hbs : bs ≠ []) (hdec : decode bs = .error fe) :
    handleConnection nm bs = ⟨[], [.incr (nm ++ ".receiveErrorCount")]⟩ := by
  rw [handleConnection, dif_neg hbs]
  split
  · rename_i e' rest' heq
    rw [hdec] at heq
    cases heq
  · rfl

/-- C3: a frame declaring a 4-byte length of 1000 whose connection closes
after fewer payload bytes delivers no envelope and emits exactly one
`receiveErrorCount` increment for the connection. -/
theorem short_frame_one_receive_error (nm : String) (payload : List Byte)
    (h : payload.length < 1000) :
    handleConnection nm (leBytes4 1000 ++ payload) =
      ⟨[], [.incr (nm ++ ".receiveErrorCount")]⟩ := by
  have hdec : decode (leBytes4 1000 ++ payload) = .error .shortRead := by
    unfold leBytes4 decode
    simp only [List.cons_append, List.nil_append]
    have : fromLE4 (1000 % 256) (1000 / 256 % 256) (1000 / 65536 % 256)
        (1000 / 16777216 % 256) = 1000 := by norm_num [fromLE4]
    rw [this]
    simp only [if_neg (by omega : ¬1000 ≤ payload.length)]
  exact handleConnection_error nm (by simp [leBytes4]) hdec

/-- Witness for C3: declared length 1000, peer closes after 16 bytes. -/
theorem short_frame_one_receive_error_witness :
    ([3, 1, 4, 1, 5, 9, 2, 6, 5, 3, 5, 8, 9, 7, 9, 3] : List Byte).length < 1000 ∧
      handleConnection "aname" (leBytes4 1000 ++ [3, 1, 4, 1, 5, 9, 2, 6, 5, 3, 5, 8, 9, 7, 9, 3]) =
        ⟨[], [.incr ("aname" ++ ".receiveErrorCount")]⟩ :=
  ⟨by decide,
    short_frame_one_receive_error "aname" [3, 1, 4, 1, 5, 9, 2, 6, 5, 3, 5, 8, 9, 7, 9, 3]
      (by decide)⟩

theorem handleConnection_encode (nm : String) (e : Envelope)
    (h : (marshal e).length < 2 ^ 32) :
    handleConnection nm (encode e) = ⟨[e], successOps nm (marshal e).length⟩ := by
  have hne : encode e ≠ [] := by
    unfold encode leBytes4
    simp
  have hdec : decode (encode e) = .ok (e, []) := by
    have hmod : (marshal e).length % 2 ^ 32 = (marshal e).length := Nat.mod_eq_of_lt h
    simp only [encode, leBytes4, hmod]
    unfold decode
    simp only [List.cons_append, List.nil_append]
    rw [fromLE4_leBytes4 _ h]
    simp [List.take_length, List.drop_length, unmarshal_marshal]
  rw [handleConnection_ok nm hne hdec, handleConnection_nil]
  have hlen : (encode e).length = 4 + (marshal e).length := by
    have hmod : (marshal e).length % 2 ^ 32 = (marshal e).length := Nat.mod_eq_of_lt h
    simp only [encode, leBytes4, hmod, List.cons_append, List.nil_append, List.length_cons]
    omega
  simp [hlen]

/-- C6: a connection carrying exactly one valid frame delivers exactly
that envelope and emits exactly three counter updates: the listener's
`receivedMessageCount` by 1, the shared
`listeners.totalReceivedMessageCount` by 1, and the listener's
`receivedByteCount` by the frame's payload byte length — nothing else. -/
theorem success_metric_updates (nm : String) (e : Envelope)
    (h : (marshal e).length < 2 ^ 32) :
    handleConnection nm (encode e) = ⟨[e], successOps nm (marshal e).length⟩ :=
  handleConnection_encode nm e h

/-- Witness for C6 at a concrete value-metric envelope. -/
theorem success_metric_updates_witness :
    (marshal ⟨.valueMetric, [7, 7, 7]⟩).length < 2 ^ 32 ∧
      handleConnection "aname" (encode ⟨.valueMetric, [7, 7, 7]⟩) =
        ⟨[⟨.valueMetric, [7, 7, 7]⟩], successOps "aname" (marshal ⟨.valueMetric, [7, 7, 7]⟩).length⟩ :=
  ⟨by decide, success_metric_updates "aname" ⟨.valueMetric, [7, 7, 7]⟩ (by decide)⟩

/-- The three lifecycle states of a listener. -/
inductive ListenerState
  | created
  | started
  | stopped
deriving DecidableEq, Repr

/-- What a call to `Start` does: either begin accepting connections or
abort the process loudly. -/
inductive StartOutcome
  | startsAccepting
  | panics
deriving DecidableEq, Repr

/-- Modelled from the spec: the listener's `Start` transition (the
TCPListener implementation is not under src/, only its tests): Created →
Started happens once; calling `Start` when already Started, or after
`Stop`, is a fatal usage error that panics and performs no state
transition. -/
def startListener : ListenerState → StartOutcome × ListenerState
  | .created => (.startsAccepting, .started)
  | .started => (.panics, .started)
  | .stopped => (.panics, .stopped)

/-- Modelled from the spec: the listener's `Stop` transition closes the
socket and all connections; from any state it leads to Stopped. -/
def stopListener : ListenerState → ListenerState
  | _ => .stopped

/-- C2: calling `Start` a second time (state Started) or after `Stop`
(state Stopped) panics; it is never silently ignored (the outcome is a
panic, not a successful accept) and never restarts the listener (a
stopped listener does not re-enter Started). -/
theorem start_twice_or_after_stop_panics :
    (startListener .started).1 = .panics ∧
      (startListener (stopListener .started)).1 = .panics ∧
      (startListener .started).1 ≠ .startsAccepting ∧
      (startListener (stopListener .started)).1 ≠ .startsAccepting ∧
      (startListener (stopListener .started)).2 ≠ .started ∧
      (startListener .created).1 = .startsAccepting := by
  decide

/-- One connection attempt seen by the accept loop: either the TLS
handshake fails, or a session whose byte stream the listener then reads. -/
inductive ConnAttempt
  | handshakeFailure
  | session (stream : List Byte)
deriving DecidableEq, Repr

/-- Modelled from the spec: the listener's accept loop (implementation
not under src/, only its tests): each accepted connection is handled
independently; a TLS handshake failure during accept emits exactly one
`receiveErrorCount` increment for that attempt and the loop keeps
accepting; the listener itself never crashes because of one attempt. -/
def acceptLoop (nm : String) : List ConnAttempt → ConnResult
  | [] => ⟨[], []⟩
  | .handshakeFailure :: rest =>
    let r := acceptLoop nm rest
    ⟨r.delivered, .incr (nm ++ ".receiveErrorCount") :: r.ops⟩
  | .session bs :: rest =>
    let c := handleConnection nm bs
    let r := acceptLoop nm rest
    ⟨c.delivered ++ r.delivered, c.ops ++ r.ops⟩

/-- C7: a connection attempt whose TLS handshake fails contributes
exactly one `receiveErrorCount` increment and nothing else, and the
listener keeps running: a later valid session still delivers its
envelope, and any further attempts are still processed. -/
theorem handshake_failure_counts_once_and_listener_survives (nm : String) (e : Envelope)
    (rest : List ConnAttempt) (h : (marshal e).length < 2 ^ 32) :
    acceptLoop nm (.handshakeFailure :: .session (encode e) :: rest) =
      ⟨e :: (acceptLoop nm rest).delivered,
        .incr (nm ++ ".receiveErrorCount") ::
          (successOps nm (marshal e).length ++ (acceptLoop nm rest).ops)⟩ := by
  have hs := handleConnection_encode nm e h
  simp [acceptLoop, hs]

/-- Witness for C7: a failed handshake followed by one good session. -/
theorem handshake_failure_counts_once_witness :
    (marshal ⟨.err, [1]⟩).length < 2 ^ 32 ∧
      acceptLoop "aname" (.handshakeFailure :: .session (encode ⟨.err, [1]⟩) :: []) =
        ⟨⟨.err, [1]⟩ :: (acceptLoop "aname" []).delivered,
          .incr ("aname" ++ ".receiveErrorCount") ::
            (successOps "aname" (marshal ⟨.err, [1]⟩).length ++ (acceptLoop "aname" []).ops)⟩ :=
  ⟨by decide, handshake_failure_counts_once_and_listener_survives "aname" ⟨.err, [1]⟩ [] (by decide)⟩

/-- What the underlying client reports back from one framed write: the
number of payload bytes actually accepted, and an optional error. -/
structure ClientWriteResult where
  sentLength : Nat
  writeErr : Option String
deriving DecidableEq, Repr

/-- The observable effect of one forwarder `Write` call: the metric
updates emitted, whether the client was closed, and the error returned
to the caller. -/
structure WrapperWriteEffect where
  ops : List MetricOp
  clientClosed : Bool
  returnedErr : Option String
deriving DecidableEq, Repr

/-- Modelled from the spec: the dopplerforwarder `Wrapper.Write`
(implementation not under src/, only its tests): delegate the framed
send of `message` to the client; on failure increment
`<protocol>.sendErrorCount` by 1, touch no other counter, close the
client (a close error is swallowed), and return the original write
error; on success increment `<protocol>.sentMessageCount` by 1 and add
the client-reported sent length — not `message.length` — to
`<protocol>.sentByteCount`. -/
def wrapperWrite (protocol : String) (message : List Byte)
    (res : ClientWriteResult) : WrapperWriteEffect :=
  match res.writeErr with
  | some er => ⟨[.incr (protocol ++ ".sendErrorCount")], true, some er⟩
  | none =>
    let _ := message
    ⟨[.incr (protocol ++ ".sentMessageCount"),
      .add (protocol ++ ".sentByteCount") res.sentLength], false, none⟩

/-- C4: when the underlying client write fails, the forwarder increments
`<protocol>.sendErrorCount` by exactly 1, leaves every other counter
(`m`) unchanged — in particular `sentMessageCount` and `sentByteCount` —
closes the client, and returns the original write error. -/
theorem write_failure_only_send_error (protocol : String) (message : List Byte)
    (n : Nat) (er : String) (c : String → Nat) (m : String)
    (hm : m ≠ protocol ++ ".sendErrorCount") :
    (wrapperWrite protocol message ⟨n, some er⟩).returnedErr = some er ∧
      (wrapperWrite protocol message ⟨n, some er⟩).clientClosed = true ∧
      applyOps (wrapperWrite protocol message ⟨n, some er⟩).ops c
          (protocol ++ ".sendErrorCount") = c (protocol ++ ".sendErrorCount") + 1 ∧
      applyOps (wrapperWrite protocol message ⟨n, some er⟩).ops c m = c m := by
  refine ⟨rfl, rfl, ?_, ?_⟩
  · simp [wrapperWrite, applyOps, applyOp]
  · simp [wrapperWrite, applyOps, applyOp, hm]

/-- Witness for C4 at a concrete protocol, message and error, with
`tcp.sentMessageCount` as the untouched counter. -/
theorem write_failure_only_send_error_witness :
    (wrapperWrite "tcp" [1, 2, 3] ⟨0, some "failure"⟩).returnedErr = some "failure" ∧
      (wrapperWrite "tcp" [1, 2, 3] ⟨0, some "failure"⟩).clientClosed = true ∧
      applyOps (wrapperWrite "tcp" [1, 2, 3] ⟨0, some "failure"⟩).ops (fun _ => 0)
          ("tcp" ++ ".sendErrorCount") = (fun _ : String => 0) ("tcp" ++ ".sendErrorCount") + 1 ∧
      applyOps (wrapperWrite "tcp" [1, 2, 3] ⟨0, some "failure"⟩).ops (fun _ => 0)
          "tcp.sentMessageCount" = (fun _ : String => 0) "tcp.sentMessageCount" :=
  write_failure_only_send_error "tcp" [1, 2, 3] 0 "failure" (fun _ => 0)
    "tcp.sentMessageCount" (by decide)

/-- C5: when the underlying client write succeeds reporting `n` sent
bytes, the forwarder adds exactly `n` — the client-reported count, not
the length of the caller-supplied message — to `<protocol>.sentByteCount`
(so a client reporting `message.length - 3` adds exactly
`message.length - 3`), increments `<protocol>.sentMessageCount` by 1,
and returns no error. -/
theorem write_success_counts_client_bytes (protocol : String) (message : List Byte)
    (n : Nat) (c : String → Nat)
    (hn : protocol ++ ".sentByteCount" ≠ protocol ++ ".sentMessageCount") :
    applyOps (wrapperWrite protocol message ⟨n, none⟩).ops c
        (protocol ++ ".sentByteCount") = c (protocol ++ ".sentByteCount") + n ∧
      applyOps (wrapperWrite protocol message ⟨n, none⟩).ops c
          (protocol ++ ".sentMessageCount") = c (protocol ++ ".sentMessageCount") + 1 ∧
      (wrapperWrite protocol message ⟨n, none⟩).returnedErr = none := by
  refine ⟨?_, ?_, rfl⟩
  · simp [wrapperWrite, applyOps, applyOp, hn]
  · simp [wrapperWrite, applyOps, applyOp, Ne.symm hn]

/-- Witness for C5: a 10-byte message whose client reports 7 = 10 - 3
sent bytes adds exactly 7 to `tcp.sentByteCount`. -/
theorem write_success_counts_client_bytes_witness :
    ("tcp" ++ ".sentByteCount" ≠ "tcp" ++ ".sentMessageCount") ∧
      (applyOps (wrapperWrite "tcp" [0, 1, 2, 3, 4, 5, 6, 7, 8, 9]
            ⟨[0, 1, 2, 3, 4, 5, 6, 7, 8, 9].length - 3, none⟩).ops (fun _ => 0)
          ("tcp" ++ ".sentByteCount") =
          (fun _ : String => 0) ("tcp" ++ ".sentByteCount") +
            ([0, 1, 2, 3, 4, 5, 6, 7, 8, 9].length - 3) ∧
        applyOps (wrapperWrite "tcp" [0, 1, 2, 3, 4, 5, 6, 7, 8, 9]
            ⟨[0, 1, 2, 3, 4, 5, 6, 7, 8, 9].length - 3, none⟩).ops (fun _ => 0)
          ("tcp" ++ ".sentMessageCount") =
          (fun _ : String => 0) ("tcp" ++ ".sentMessageCount") + 1 ∧
        (wrapperWrite "tcp" [0, 1, 2, 3, 4, 5, 6, 7, 8, 9]
            ⟨[0, 1, 2, 3, 4, 5, 6, 7, 8, 9].length - 3, none⟩).returnedErr = none) :=
  ⟨by decide,
    write_success_counts_client_bytes "tcp" [0, 1, 2, 3, 4, 5, 6, 7, 8, 9]
      ([0, 1, 2, 3, 4, 5, 6, 7, 8, 9].length - 3) (fun _ => 0) (by decide)⟩

/-- The verification-relevant shape of a connecting client's TLS
configuration: whether it trusts the listener's CA, whether its own
certificate is valid under the listener's CA, and the expected server
name it sets (if any). -/
structure ClientTLSConfig where
  hasTrustedCA : Bool
  hasValidClientCert : Bool
  serverName : Option String
deriving DecidableEq, Repr

/-- The connect-time TLS failures the spec distinguishes. -/
inductive TLSError
  | unknownAuthority
  | cannotValidateServerIdentity
  | handshakeRejected
deriving DecidableEq, Repr

/-- Modelled from the spec: the connect-time verification a client of a
TLS-enabled listener goes through (the TLS listener and `NewTLSConfig`
implementations are not under src/, only their tests): without a trusted
CA the server's certificate fails authority verification; with a trusted
CA but no expected server name set, certificate validation fails on the
peer's identity rather than being skipped; with a trusted CA, a valid
client certificate and a server name, the mutual handshake succeeds. -/
def clientConnect (cfg : ClientTLSConfig) : Except TLSError Unit :=
  if cfg.hasTrustedCA = false then .error .unknownAuthority
  else
    match cfg.serverName with
    | none => .error .cannotValidateServerIdentity
    | some _ => if cfg.hasValidClientCert then .ok () else .error .handshakeRejected

/-- C8: a client without a trusted CA certificate fails to connect with
an authority-verification error (whatever its other settings); a client
with a valid certificate but no expected server name fails with a
name-verification error instead of silently skipping verification; and
a fully configured client connects successfully. -/
theorem tls_client_verification (certOk : Bool) (sn : Option String) (s : String) :
    clientConnect ⟨false, certOk, sn⟩ = .error .unknownAuthority ∧
      clientConnect ⟨true, true, none⟩ = .error .cannotValidateServerIdentity ∧
      clientConnect ⟨true, true, some s⟩ = .ok () := by
  refine ⟨?_, rfl, rfl⟩
  simp [clientConnect]

/-- The config fields that `Parse` itself reads or writes; the remaining
JSON fields are decoded verbatim and play no role in `Parse`'s logic. -/
structure Config where
  DopplerAddr : String
  DopplerAddrWithAZ : String
  MetricBatchIntervalMilliseconds : Nat
  RuntimeStatsIntervalMilliseconds : Nat
deriving DecidableEq, Repr

/-- What the JSON decoder contributes for each of those fields: `none`
means the field is absent from the input, so the value `Parse`
pre-initialized (the zero value for the strings, 60000 for the
intervals) survives; `some v` means the field is present and overwrites
it. -/
structure ConfigPatch where
  DopplerAddr : Option String
  DopplerAddrWithAZ : Option String
  MetricBatchIntervalMilliseconds : Option Nat
  RuntimeStatsIntervalMilliseconds : Option Nat
deriving DecidableEq, Repr

/-- `strings.Replace(s, "@", "-", -1)`: every `@` becomes `-`. -/
def replaceAtWithDash (s : String) : String :=
  String.mk (s.data.map (fun ch => if ch = '@' then '-' else ch))

/-- `Parse` from the source (src/src/trafficcontroller/main.go:613-638):
start from defaults of 60000 for both intervals, apply the JSON
decoder's result (an error, or a patch of the present fields), reject an
empty `DopplerAddr` then an empty `DopplerAddrWithAZ`, convert
`DopplerAddrWithAZ` to IDNA ASCII (the external `idna.ToASCII` is the
`idnaToASCII` parameter) propagating its error, and finally replace
every `@` with `-` in the converted value. -/
def Parse (idnaToASCII : String → Except String String)
    (decoded : Except String ConfigPatch) : Except String Config :=
  match decoded with
  | .error er => .error er
  | .ok p =>
    let config : Config :=
      { DopplerAddr := p.DopplerAddr.getD ""
        DopplerAddrWithAZ := p.DopplerAddrWithAZ.getD ""
        MetricBatchIntervalMilliseconds := p.MetricBatchIntervalMilliseconds.getD 60000
        RuntimeStatsIntervalMilliseconds := p.RuntimeStatsIntervalMilliseconds.getD 60000 }
    if config.DopplerAddr = "" then .error "DopplerAddr is required"
    else if config.DopplerAddrWithAZ = "" then .error "DopplerAddrWithAZ is required"
    else
      match idnaToASCII config.DopplerAddrWithAZ with
      | .error er => .error er
      | .ok s => .ok { config with DopplerAddrWithAZ := replaceAtWithDash s }

/-- C10: `Parse` propagates a JSON-decoding error; it rejects an empty
`DopplerAddr` and an empty `DopplerAddrWithAZ`; and on success the
intervals are the input values or 60000 when absent, and the returned
`DopplerAddrWithAZ` is the IDNA-ASCII conversion of the input value with
every `@` replaced by `-`. -/
theorem parse_spec (idnaToASCII : String → Except String String) (p : ConfigPatch)
    (er s : String) :
    Parse idnaToASCII (.error er) = .error er ∧
      (p.DopplerAddr.getD "" = "" →
        Parse idnaToASCII (.ok p) = .error "DopplerAddr is required") ∧
      (p.DopplerAddr.getD "" ≠ "" → p.DopplerAddrWithAZ.getD "" = "" →
        Parse idnaToASCII (.ok p) = .error "DopplerAddrWithAZ is required") ∧
      (p.DopplerAddr.getD "" ≠ "" → p.DopplerAddrWithAZ.getD "" ≠ "" →
        idnaToASCII (p.DopplerAddrWithAZ.getD "") = .ok s →
        Parse idnaToASCII (.ok p) =
          .ok { DopplerAddr := p.DopplerAddr.getD ""
                DopplerAddrWithAZ := replaceAtWithDash s
                MetricBatchIntervalMilliseconds := p.MetricBatchIntervalMilliseconds.getD 60000
                RuntimeStatsIntervalMilliseconds :=
                  p.RuntimeStatsIntervalMilliseconds.getD 60000 }) := by
  refine ⟨rfl, ?_, ?_, ?_⟩
  · intro h1
    simp [Parse, h1]
  · intro h1 h2
    simp [Parse, h1, h2]
  · intro h1 h2 h3
    simp [Parse, h1, h2, h3]

/-- Witness for C10 at concrete inputs: an identity IDNA conversion
(pure-ASCII input), a decode error, a patch with `DopplerAddr` absent, a
patch with `DopplerAddrWithAZ` absent, and a full patch with
`DopplerAddrWithAZ = "doppler@az1"` and both intervals absent, yielding
the 60000 defaults and `"doppler-az1"`. -/
theorem parse_spec_witness :
    Parse (fun s => .ok s) (.error "bad json") = .error "bad json" ∧
      Parse (fun s => .ok s) (.ok ⟨none, some "d@z", none, none⟩) =
        .error "DopplerAddr is required" ∧
      Parse (fun s => .ok s) (.ok ⟨some "addr", none, none, none⟩) =
        .error "DopplerAddrWithAZ is required" ∧
      Parse (fun s => .ok s) (.ok ⟨some "addr", some "doppler@az1", none, none⟩) =
        .ok { DopplerAddr := "addr"
              DopplerAddrWithAZ := replaceAtWithDash "doppler@az1"
              MetricBatchIntervalMilliseconds := 60000
              RuntimeStatsIntervalMilliseconds := 60000 } ∧
      replaceAtWithDash "doppler@az1" = "doppler-az1" :=
  ⟨(parse_spec (fun s => .ok s) ⟨none, some "d@z", none, none⟩ "bad json" "s").1,
    (parse_spec (fun s => .ok s) ⟨none, some "d@z", none, none⟩ "bad json" "s").2.1 rfl,
    (parse_spec (fun s => .ok s) ⟨some "addr", none, none, none⟩ "bad json" "s").2.2.1
      (by decide) rfl,
    (parse_spec (fun s => .ok s) ⟨some "addr", some "doppler@az1", none, none⟩ "bad json"
      "doppler@az1").2.2.2 (by decide) (by decide) rfl,
    by rfl⟩

end Loggregator
